import Mathlib

/-!
Shallow embedding of the x402 payment-negotiation core of the
web3-login-payment repository (the ethers-based payment view):
the network registry NETWORK_MAP, the matcher findBestPaymentOption,
the chain switcher ensureNetwork, the executor executePayment, the
proof encoder createPaymentToken (JSON then btoa/Base64), and the
orchestrator handlePayment.  Wallet and HTTP interactions are modelled
by an environment record supplying the outcome of each external call,
and each run also yields the list of wallet actions it performed, so
that trace properties (no transfer before the balance check, exactly
one confirmation wait, no chain-id re-read) can be stated.
-/

namespace X402

/-- Native-currency descriptor inside a chain configuration. -/
structure NativeCurrency where
  name : String
  symbol : String
  decimals : Nat
deriving DecidableEq, Repr

/-- ChainConfig: client-known connection parameters for one network,
mirroring the interface ChainConfig of the source. -/
structure ChainConfig where
  chainIdHex : String
  chainIdDec : Nat
  chainName : String
  nativeCurrency : NativeCurrency
  rpcUrls : List String
  blockExplorerUrls : List String
deriving DecidableEq, Repr

/-- X402Option: one server-offered way to pay, mirroring the interface
X402Option of the source.  maxAmountRequired is kept as the decimal
string the server sends, as in the source. -/
structure X402Option where
  scheme : String
  network : String
  resource : String
  payTo : String
  asset : String
  maxAmountRequired : String
  extraName : Option String := none
  extraDecimals : Option Nat := none
deriving DecidableEq, Repr

/-- The static NETWORK_MAP of the source: two entries, keyed by the
network token used in X402Option.network. -/
def NETWORK_MAP (token : String) : Option ChainConfig :=
  if token = "base-sepolia" then
    some
      { chainIdHex := "0x14a34"
        chainIdDec := 84532
        chainName := "Base Sepolia"
        nativeCurrency := { name := "ETH", symbol := "ETH", decimals := 18 }
        rpcUrls := ["https://sepolia.base.org"]
        blockExplorerUrls := ["https://sepolia.basescan.org"] }
  else if token = "sepolia" then
    some
      { chainIdHex := "0xaa36a7"
        chainIdDec := 11155111
        chainName := "Sepolia"
        nativeCurrency := { name := "SepoliaETH", symbol := "ETH", decimals := 18 }
        rpcUrls := ["https://rpc.sepolia.org"]
        blockExplorerUrls := ["https://sepolia.etherscan.io"] }
  else
    none

/-- A provider error code: JS errors carry either a numeric code
(4902, 4001) or a string code such as ACTION_REJECTED. -/
inductive ErrCode where
  | num (n : Int)
  | str (s : String)
deriving DecidableEq, Repr

/-- Shape of an error thrown by the wallet provider: the code field,
the nested error.code field, and the message. -/
structure ProviderError where
  code : Option ErrCode := none
  innerCode : Option ErrCode := none
  message : String := ""
deriving DecidableEq, Repr

/-- The failures the payment core can raise.  The source throws plain
JS Errors; each constructor records the data the corresponding throw
site embeds in its message (payErrMessage renders the message text). -/
inductive PayErr where
  | noWallet
  | invalidPaymentParams
  | unsupportedNetwork (offered : List String)
  | invalidAmount (s : String)
  | insufficientBalance (required available : Nat)
  | provider (e : ProviderError)
  | btoaRangeErr
deriving DecidableEq, Repr

/-- The message text of each throw site in the source. -/
def payErrMessage : PayErr → String
  | .noWallet => "No crypto wallet found"
  | .invalidPaymentParams => "Invalid payment parameters"
  | .unsupportedNetwork offered =>
      "No supported payment network found. Server accepts: " ++
        String.intercalate ", " offered
  | .invalidAmount s => "Cannot convert " ++ s ++ " to a BigInt"
  | .insufficientBalance required available =>
      "Insufficient Token Balance. You need " ++ toString required ++
        " units of the token, but you only have " ++ toString available ++ "."
  | .provider e => e.message
  | .btoaRangeErr => "The string to be encoded contains characters outside of the Latin1 range."

/-- The code field visible on a caught payment failure, used by the
orchestrator check for ACTION_REJECTED; plain Errors have no code. -/
def payErrCode : PayErr → Option ErrCode
  | .provider e => e.code
  | _ => none

/-- Loop body of findBestPaymentOption: the first option whose network
token is a key of NETWORK_MAP, paired with its config. -/
def findFirstSupported : List X402Option → Option (X402Option × ChainConfig)
  | [] => none
  | o :: rest =>
    match NETWORK_MAP o.network with
    | some config => some (o, config)
    | none => findFirstSupported rest

/-- findBestPaymentOption of the source: iterate the accepts list in
order, return the first option with a NETWORK_MAP entry; if none
resolves, throw listing every offered network token. -/
def findBestPaymentOption (accepts : List X402Option) :
    Except PayErr (X402Option × ChainConfig) :=
  match findFirstSupported accepts with
  | some oc => Except.ok oc
  | none => Except.error (PayErr.unsupportedNetwork (accepts.map (·.network)))

/-- One wallet-provider call made during a run, in order.  Recording
the trace lets theorems state which calls happen and in what order. -/
inductive WAction where
  | getNetwork
  | switchChain (chainIdHex : String)
  | addChain (config : ChainConfig)
  | getAddress
  | balanceOf (asset owner : String)
  | transfer (asset payTo amount : String)
  | waitConfirmations (n : Nat)
deriving DecidableEq, Repr

deriving instance DecidableEq for Except

/-- Environment supplying the outcome of each external wallet call of
one run: the chain id getNetwork reports, the results of the switch,
add, transfer and wait calls, the connected address and the token
balance balanceOf reports. -/
structure WalletEnv where
  chainId : Nat
  switchResult : Except ProviderError Unit
  addResult : Except ProviderError Unit
  address : String
  balance : Nat
  transferResult : Except ProviderError String
  waitResult : Except ProviderError Unit
deriving DecidableEq, Repr

/-- The 4902 test of the source: switchError.code or the nested
switchError.error.code equals the numeric code 4902. -/
def is4902 (e : ProviderError) : Bool :=
  e.code = some (ErrCode.num 4902) || e.innerCode = some (ErrCode.num 4902)

/-- ensureNetwork of the source: read the current chain id; if it
already equals config.chainIdDec return at once; otherwise request
wallet_switchEthereumChain; on a 4902 failure request
wallet_addEthereumChain with the config (and do not re-check the
chain); any other switch error is rethrown. -/
def ensureNetwork (w : WalletEnv) (config : ChainConfig) :
    Except PayErr Unit × List WAction :=
  if w.chainId = config.chainIdDec then
    (Except.ok (), [WAction.getNetwork])
  else
    match w.switchResult with
    | Except.ok _ =>
        (Except.ok (), [WAction.getNetwork, WAction.switchChain config.chainIdHex])
    | Except.error e =>
        if is4902 e then
          match w.addResult with
          | Except.ok _ =>
              (Except.ok (),
               [WAction.getNetwork, WAction.switchChain config.chainIdHex,
                WAction.addChain config])
          | Except.error e2 =>
              (Except.error (PayErr.provider e2),
               [WAction.getNetwork, WAction.switchChain config.chainIdHex,
                WAction.addChain config])
        else
          (Except.error (PayErr.provider e),
           [WAction.getNetwork, WAction.switchChain config.chainIdHex])

/-- Decimal digit value of a character, when it is one. -/
def decDigit? (c : Char) : Option Nat :=
  if 48 ≤ c.toNat ∧ c.toNat ≤ 57 then some (c.toNat - 48) else none

/-- Accumulating decimal parser over the characters of a string. -/
def parseDecAux : List Char → Nat → Option Nat
  | [], acc => some acc
  | c :: cs, acc =>
    match decDigit? c with
    | some d => parseDecAux cs (acc * 10 + d)
    | none => none

/-- The BigInt conversion of the source applied to a server amount
string: arbitrary-precision value of a decimal digit string (none
models the SyntaxError BigInt throws on a malformed string; the empty
string gives 0 as BigInt does). -/
def parseDec (s : String) : Option Nat := parseDecAux s.data 0

/-- executePayment of the source: require a wallet, run ensureNetwork,
resolve the signer address, read the token balance, convert
maxAmountRequired with BigInt (parseDec, arbitrary precision), fail
before any transfer when the balance is short, otherwise transfer
maxAmountRequired of option.asset to option.payTo, wait for 1
confirmation, and return the transaction hash. -/
def executePayment (hasWallet : Bool) (w : WalletEnv)
    (option : X402Option) (config : ChainConfig) :
    Except PayErr String × List WAction :=
  if !hasWallet then
    (Except.error PayErr.noWallet, [])
  else
    match (ensureNetwork w config).1 with
    | Except.error e => (Except.error e, (ensureNetwork w config).2)
    | Except.ok _ =>
      let tr1 := (ensureNetwork w config).2 ++
        [WAction.getAddress, WAction.balanceOf option.asset w.address]
      match parseDec option.maxAmountRequired with
      | none => (Except.error (PayErr.invalidAmount option.maxAmountRequired), tr1)
      | some required =>
        if w.balance < required then
          (Except.error (PayErr.insufficientBalance required w.balance), tr1)
        else
          let tr2 := tr1 ++
            [WAction.transfer option.asset option.payTo option.maxAmountRequired]
          match w.transferResult with
          | Except.error e => (Except.error (PayErr.provider e), tr2)
          | Except.ok txHash =>
            let tr3 := tr2 ++ [WAction.waitConfirmations 1]
            match w.waitResult with
            | Except.error e => (Except.error (PayErr.provider e), tr3)
            | Except.ok _ => (Except.ok txHash, tr3)

/-- ASCII code of the Base64 alphabet character for a sextet value. -/
def b64code (n : Nat) : Nat :=
  if n < 26 then 65 + n
  else if n < 52 then 71 + n
  else if n < 62 then n - 4
  else if n = 62 then 43
  else 47

/-- Base64 alphabet character for a sextet value. -/
def b64char (n : Nat) : Char := Char.ofNat (b64code n)

/-- Inverse of the Base64 alphabet: sextet value of a character. -/
def b64val (c : Char) : Option Nat :=
  let m := c.toNat
  if 65 ≤ m ∧ m ≤ 90 then some (m - 65)
  else if 97 ≤ m ∧ m ≤ 122 then some (m - 71)
  else if 48 ≤ m ∧ m ≤ 57 then some (m + 4)
  else if m = 43 then some 62
  else if m = 47 then some 63
  else none

/-- Base64 encoding of a byte list, with padding, as btoa performs it
on the code units of its argument. -/
def encodeBytes : List Nat → List Char
  | [] => []
  | [a] => [b64char (a / 4), b64char (a % 4 * 16), '=', '=']
  | [a, b] =>
      [b64char (a / 4), b64char (a % 4 * 16 + b / 16), b64char (b % 16 * 4), '=']
  | a :: b :: c :: rest =>
      b64char (a / 4) :: b64char (a % 4 * 16 + b / 16) ::
        b64char (b % 16 * 4 + c / 64) :: b64char (c % 64) :: encodeBytes rest

/-- Base64 decoding back to bytes, as atob performs it: groups of four
characters, the last group possibly padded; anything else is rejected. -/
def decodeB64 : List Char → Option (List Nat)
  | [] => some []
  | c1 :: c2 :: c3 :: c4 :: rest =>
    if c3 = '=' ∧ c4 = '=' ∧ rest = [] then
      (b64val c1).bind fun v1 =>
      (b64val c2).bind fun v2 =>
      if v2 % 16 = 0 then some [v1 * 4 + v2 / 16] else none
    else if c4 = '=' ∧ rest = [] then
      (b64val c1).bind fun v1 =>
      (b64val c2).bind fun v2 =>
      (b64val c3).bind fun v3 =>
      if v3 % 4 = 0 then
        some [v1 * 4 + v2 / 16, v2 % 16 * 16 + v3 / 4]
      else none
    else
      (b64val c1).bind fun v1 =>
      (b64val c2).bind fun v2 =>
      (b64val c3).bind fun v3 =>
      (b64val c4).bind fun v4 =>
      (decodeB64 rest).map fun bs =>
        (v1 * 4 + v2 / 16) :: (v2 % 16 * 16 + v3 / 4) :: (v3 % 4 * 64 + v4) :: bs
  | _ => none

/-- btoa of the browser: Base64 over the code units of the string;
throws (none) when a code unit lies outside the Latin1 range. -/
def btoa (s : String) : Option String :=
  if s.data.all (fun c => c.toNat < 256) then
    some (String.mk (encodeBytes (s.data.map Char.toNat)))
  else none

/-- Lowercase hex digit, used by the JSON escaping of control chars. -/
def hexDigitChar (n : Nat) : Char :=
  if n < 10 then Char.ofNat (48 + n) else Char.ofNat (87 + n)

/-- Escaping JSON.stringify applies inside a string value. -/
def jsonEscapeChar (ch : Char) : List Char :=
  if ch = '"' then ['\\', '"']
  else if ch = '\\' then ['\\', '\\']
  else if ch.toNat = 8 then ['\\', 'b']
  else if ch.toNat = 9 then ['\\', 't']
  else if ch.toNat = 10 then ['\\', 'n']
  else if ch.toNat = 12 then ['\\', 'f']
  else if ch.toNat = 13 then ['\\', 'r']
  else if ch.toNat < 32 then
    ['\\', 'u', '0', '0', hexDigitChar (ch.toNat / 16), hexDigitChar (ch.toNat % 16)]
  else [ch]

/-- A JSON string literal for s, as JSON.stringify renders it. -/
def jsonQuote (s : String) : String :=
  String.mk ('"' :: (s.data.map jsonEscapeChar).flatten ++ ['"'])

/-- JSON.stringify of the payload record built by createPaymentToken:
first the hash field, then the chainId field, in insertion order. -/
def paymentTokenJson (txHash : String) (chainId : Nat) : String :=
  "\x7b\"hash\":" ++ jsonQuote txHash ++ ",\"chainId\":" ++ toString chainId ++ "\x7d"

/-- createPaymentToken of the source: build the record of hash and
chainId, serialize it with JSON.stringify, and Base64-encode the text
with btoa. -/
def createPaymentToken (txHash : String) (chainId : Nat) : Option String :=
  btoa (paymentTokenJson txHash chainId)

/-- Decode a token with atob and re-encode the resulting bytes, the
round trip the spec requires of the proof encoding. -/
def decodeThenReencode (token : String) : Option String :=
  (decodeB64 token.data).map (fun bs => String.mk (encodeBytes bs))

/-- Decode a token back to the text it encodes. -/
def atobStr (token : String) : Option String :=
  (decodeB64 token.data).map (fun bs => String.mk (bs.map Char.ofNat))

/-- Outcome of one api.get call: success, an HTTP error response with
its status, accepts field (none when missing or not an array), data
error field, axios error code and message, or a transport error with
no response at all. -/
inductive HttpOutcome where
  | ok
  | httpErr (status : Nat) (accepts : Option (List X402Option))
      (errField : Option String) (code : Option ErrCode) (message : String)
  | netErr (code : Option ErrCode) (message : String)
deriving DecidableEq, Repr

/-- One HTTP request the orchestrator issued: the plan path and the
X-Payment header when present. -/
structure HttpReq where
  plan : String
  xPayment : Option String
deriving DecidableEq, Repr

/-- Environment of one handlePayment run: wallet presence, the
response to the initial request, the response to the retried request
(when one is made), and the wallet behaviour. -/
structure OrchEnv where
  hasWallet : Bool
  firstResp : HttpOutcome
  retryResp : HttpOutcome
  wallet : WalletEnv
deriving DecidableEq, Repr

/-- Observable result of one handlePayment run: the final error ref
value (empty when the flow succeeded), the HTTP requests issued in
order, the wallet actions performed, and the final loading flag. -/
structure OrchResult where
  errorMsg : String
  requests : List HttpReq
  walletActions : List WAction
  loadingFinal : Bool
deriving DecidableEq, Repr

/-- JS a or-else b for strings: the empty string is falsy. -/
def jsOrStr (a b : String) : String := if a = "" then b else a

/-- JS optional chain or-else: missing or empty falls through. -/
def jsOptOr (a : Option String) (b : String) : String :=
  match a with
  | some s => jsOrStr s b
  | none => b

/-- The inner catch of handlePayment: an ACTION_REJECTED code maps to
the fixed rejection message, every other failure surfaces its message
text (or the generic fallback). -/
def innerCatchMsg (code : Option ErrCode) (message : String) : String :=
  if code = some (ErrCode.str "ACTION_REJECTED") then
    "You rejected the transaction."
  else jsOrStr message "Payment execution failed"

/-- handlePayment of the source.  It sets loading to true on entry
without consulting the in-flight flag, so the result takes the
pre-call loading value as a parameter only to show independence from
it.  The flow: issue the initial request; on a 402 with an accepts
array, match an option, execute the payment, encode the proof token,
and retry the original request once with the X-Payment header; any
failure of this sub-flow lands in the inner catch; non-402 errors land
in the outer catch. -/
def handlePayment (env : OrchEnv) (plan : String) (loadingAtEntry : Bool) :
    OrchResult :=
  let _ := loadingAtEntry
  let req0 : HttpReq := { plan := plan, xPayment := none }
  match env.firstResp with
  | HttpOutcome.ok =>
      { errorMsg := "", requests := [req0], walletActions := [], loadingFinal := false }
  | HttpOutcome.netErr _ msg =>
      { errorMsg := jsOrStr msg "Request failed", requests := [req0],
        walletActions := [], loadingFinal := false }
  | HttpOutcome.httpErr status accepts errField _ msg =>
    if status = 402 then
      match accepts with
      | none =>
          { errorMsg := innerCatchMsg none (payErrMessage PayErr.invalidPaymentParams),
            requests := [req0], walletActions := [], loadingFinal := false }
      | some accepts =>
        match findBestPaymentOption accepts with
        | Except.error e =>
            { errorMsg := innerCatchMsg (payErrCode e) (payErrMessage e),
              requests := [req0], walletActions := [], loadingFinal := false }
        | Except.ok (option, config) =>
          match executePayment env.hasWallet env.wallet option config with
          | (Except.error e, tr) =>
              { errorMsg := innerCatchMsg (payErrCode e) (payErrMessage e),
                requests := [req0], walletActions := tr, loadingFinal := false }
          | (Except.ok txHash, tr) =>
            match createPaymentToken txHash config.chainIdDec with
            | none =>
                { errorMsg := innerCatchMsg none (payErrMessage PayErr.btoaRangeErr),
                  requests := [req0], walletActions := tr, loadingFinal := false }
            | some token =>
              let req1 : HttpReq := { plan := plan, xPayment := some token }
              match env.retryResp with
              | HttpOutcome.ok =>
                  { errorMsg := "", requests := [req0, req1],
                    walletActions := tr, loadingFinal := false }
              | HttpOutcome.httpErr _ _ _ rcode rmsg =>
                  { errorMsg := innerCatchMsg rcode rmsg,
                    requests := [req0, req1], walletActions := tr, loadingFinal := false }
              | HttpOutcome.netErr rcode rmsg =>
                  { errorMsg := innerCatchMsg rcode rmsg,
                    requests := [req0, req1], walletActions := tr, loadingFinal := false }
    else
      { errorMsg := jsOptOr errField (jsOrStr msg "Request failed"),
        requests := [req0], walletActions := [], loadingFinal := false }

/-- The template renders a single error box, shown exactly when the
error ref is non-empty; there is no separate calm style for any
failure kind. -/
def rendersAsError (r : OrchResult) : Bool := r.errorMsg != ""

/-- Sample option on a network absent from NETWORK_MAP. -/
def optPolygon : X402Option :=
  { scheme := "exact", network := "polygon", resource := "/premium",
    payTo := "0xMerchant", asset := "0xUSDC", maxAmountRequired := "1000000" }

/-- Sample option on base-sepolia, present in NETWORK_MAP. -/
def optBase : X402Option :=
  { scheme := "exact", network := "base-sepolia", resource := "/premium",
    payTo := "0xMerchant", asset := "0xUSDC", maxAmountRequired := "1000000" }

/-- Sample option on sepolia, present in NETWORK_MAP. -/
def optSepolia : X402Option :=
  { scheme := "exact", network := "sepolia", resource := "/premium",
    payTo := "0xMerchant", asset := "0xUSDC", maxAmountRequired := "1000000" }

/-- The config NETWORK_MAP holds for base-sepolia. -/
def cfgBaseSepolia : ChainConfig :=
  { chainIdHex := "0x14a34", chainIdDec := 84532, chainName := "Base Sepolia"
    nativeCurrency := { name := "ETH", symbol := "ETH", decimals := 18 }
    rpcUrls := ["https://sepolia.base.org"]
    blockExplorerUrls := ["https://sepolia.basescan.org"] }

/-- Whether a wallet action is the ERC20 transfer call. -/
def isTransfer : WAction → Bool
  | WAction.transfer _ _ _ => true
  | _ => false

/-- Whether a wallet action is a confirmation wait. -/
def isWait : WAction → Bool
  | WAction.waitConfirmations _ => true
  | _ => false

/-- Wallet already on base-sepolia with ample balance; every call
succeeds. -/
def wOk : WalletEnv :=
  { chainId := 84532, switchResult := Except.ok (), addResult := Except.ok ()
    address := "0xPayer", balance := 2000000
    transferResult := Except.ok "0xTxHash", waitResult := Except.ok () }

/-- Same wallet but with a balance short of the required amount. -/
def wPoor : WalletEnv := { wOk with balance := 500000 }

/-- The error ethers throws when the user rejects the signing prompt. -/
def rejectedErr : ProviderError :=
  { code := some (ErrCode.str "ACTION_REJECTED"), message := "user rejected action" }

/-- A plain provider failure whose message happens to equal the fixed
rejection message the orchestrator shows. -/
def impostorErr : ProviderError :=
  { code := none, message := "You rejected the transaction." }

/-- Same wallet but the user rejects the signing prompt: the transfer
call throws with the ACTION_REJECTED code. -/
def wRejected : WalletEnv :=
  { wOk with transferResult := Except.error rejectedErr }

/-- Same wallet but the transfer fails with a plain provider error
whose message happens to equal the fixed rejection message. -/
def wFailedSameMsg : WalletEnv :=
  { wOk with transferResult := Except.error impostorErr }

/-- Same wallet but currently connected to chain id 1. -/
def wWrongChain : WalletEnv := { wOk with chainId := 1 }

/-- Orchestrator environment: the first request yields a 402 offering
the base-sepolia option, the retried request succeeds. -/
def env402 (w : WalletEnv) : OrchEnv :=
  { hasWallet := true
    firstResp := HttpOutcome.httpErr 402 (some [optBase]) none none
      "Request failed with status code 402"
    retryResp := HttpOutcome.ok
    wallet := w }

/-- Same but the retried request is itself rejected with a second 402. -/
def env402RetryFail : OrchEnv :=
  { env402 wOk with
    retryResp := HttpOutcome.httpErr 402 (some [optBase]) none none
      "Request failed with status code 402" }

/-- Environment whose first request already succeeds. -/
def envOkResp : OrchEnv :=
  { hasWallet := true, firstResp := HttpOutcome.ok
    retryResp := HttpOutcome.ok, wallet := wOk }

/-- The wallet trace of a fully successful payment against wOk. -/
def demoTrace : List WAction :=
  [WAction.getNetwork, WAction.getAddress,
   WAction.balanceOf "0xUSDC" "0xPayer",
   WAction.transfer "0xUSDC" "0xMerchant" "1000000",
   WAction.waitConfirmations 1]

/-- The proof token for hash 0xTxHash on chain 84532. -/
def demoToken : String := "eyJoYXNoIjoiMHhUeEhhc2giLCJjaGFpbklkIjo4NDUzMn0="

theorem findBestPaymentOption_ok_iff (accepts : List X402Option)
    (oc : X402Option × ChainConfig) :
    findBestPaymentOption accepts = Except.ok oc ↔
      findFirstSupported accepts = some oc := by
  unfold findBestPaymentOption
  cases h : findFirstSupported accepts <;> simp

theorem findFirstSupported_network (accepts : List X402Option)
    (o : X402Option) (config : ChainConfig)
    (h : findFirstSupported accepts = some (o, config)) :
    NETWORK_MAP o.network = some config := by
  induction accepts with
  | nil => simp [findFirstSupported] at h
  | cons a rest ih =>
    rw [findFirstSupported] at h
    cases hcfg : NETWORK_MAP a.network with
    | some c => rw [hcfg] at h; cases h; exact hcfg
    | none => rw [hcfg] at h; exact ih h

theorem findFirstSupported_none (accepts : List X402Option)
    (h : ∀ o ∈ accepts, NETWORK_MAP o.network = none) :
    findFirstSupported accepts = none := by
  induction accepts with
  | nil => rfl
  | cons a rest ih =>
    rw [findFirstSupported, h a (List.mem_cons_self a rest)]
    exact ih fun o ho => h o (List.mem_cons_of_mem a ho)

/-- C1: when at least one offered option has a network token that
resolves in NETWORK_MAP, findBestPaymentOption returns the first such
option in the order the server provided (every earlier option fails to
resolve), paired with the ChainConfig of that network; no re-ranking
by price or network occurs. -/
theorem findBestPaymentOption_leftmost (accepts : List X402Option)
    (h : ∃ o ∈ accepts, (NETWORK_MAP o.network).isSome) :
    ∃ pre o rest config,
      accepts = pre ++ o :: rest ∧
      (∀ p ∈ pre, NETWORK_MAP p.network = none) ∧
      NETWORK_MAP o.network = some config ∧
      findBestPaymentOption accepts = Except.ok (o, config) := by
  induction accepts with
  | nil => simp at h
  | cons a rest ih =>
    cases hcfg : NETWORK_MAP a.network with
    | some config =>
      refine ⟨[], a, rest, config, rfl, by simp, hcfg, ?_⟩
      rw [findBestPaymentOption_ok_iff, findFirstSupported, hcfg]
    | none =>
      have h' : ∃ o ∈ rest, (NETWORK_MAP o.network).isSome := by
        rcases h with ⟨o, ho, hs⟩
        rcases List.mem_cons.mp ho with rfl | ho'
        · rw [hcfg] at hs; simp at hs
        · exact ⟨o, ho', hs⟩
      obtain ⟨pre, o, tail, config, heq, hpre, hcfg2, hfind⟩ := ih h'
      refine ⟨a :: pre, o, tail, config, by rw [heq]; rfl, ?_, hcfg2, ?_⟩
      · intro p hp
        rcases List.mem_cons.mp hp with rfl | hp'
        · exact hcfg
        · exact hpre p hp'
      · rw [findBestPaymentOption_ok_iff] at hfind ⊢
        rw [findFirstSupported, hcfg]
        exact hfind

/-- C1 witness: on a list offering polygon first and base-sepolia
second, the matcher picks the base-sepolia option. -/
theorem findBestPaymentOption_leftmost_witness :
    (∃ o ∈ [optPolygon, optBase, optSepolia], (NETWORK_MAP o.network).isSome) ∧
    (∃ pre o rest config,
      [optPolygon, optBase, optSepolia] = pre ++ o :: rest ∧
      (∀ p ∈ pre, NETWORK_MAP p.network = none) ∧
      NETWORK_MAP o.network = some config ∧
      findBestPaymentOption [optPolygon, optBase, optSepolia] =
        Except.ok (o, config)) :=
  ⟨by decide, findBestPaymentOption_leftmost [optPolygon, optBase, optSepolia]
    (by decide)⟩

/-- C2: when no offered option resolves in NETWORK_MAP, the matcher
fails with the unsupported-network error carrying exactly the full
list of offered network tokens (also rendered, comma-joined, in the
thrown message), and a successful selection always carries a network
that resolves, never an unsupported one. -/
theorem findBestPaymentOption_unsupported (accepts : List X402Option)
    (h : ∀ o ∈ accepts, NETWORK_MAP o.network = none) :
    findBestPaymentOption accepts =
      Except.error (PayErr.unsupportedNetwork (accepts.map (·.network))) ∧
    payErrMessage (PayErr.unsupportedNetwork (accepts.map (·.network))) =
      "No supported payment network found. Server accepts: " ++
        String.intercalate ", " (accepts.map (·.network)) ∧
    ∀ (accepts' : List X402Option) (o : X402Option) (config : ChainConfig),
      findBestPaymentOption accepts' = Except.ok (o, config) →
      NETWORK_MAP o.network = some config := by
  refine ⟨?_, rfl, ?_⟩
  · unfold findBestPaymentOption
    rw [findFirstSupported_none accepts h]
  · intro accepts' o config hok
    exact findFirstSupported_network accepts' o config
      ((findBestPaymentOption_ok_iff accepts' (o, config)).mp hok)

/-- C2 witness: a list offering only polygon fails with the
unsupported-network error listing exactly the string polygon. -/
theorem findBestPaymentOption_unsupported_witness :
    (∀ o ∈ [optPolygon], NETWORK_MAP o.network = none) ∧
    findBestPaymentOption [optPolygon] =
      Except.error (PayErr.unsupportedNetwork ["polygon"]) :=
  ⟨by decide, ((findBestPaymentOption_unsupported [optPolygon] (by decide)).1)⟩

/-- C6: ensureNetwork first reads the current chain id and returns at
once, with no further wallet call, when it equals the numeric chain id
of the config; otherwise it requests a switch; a switch failure with
the 4902 unrecognized-chain code triggers a registration request with
the ChainConfig and no re-check of the chain afterward (the trace ends
at the add call, with a single chain-id read); every other switch
error propagates to the caller. -/
theorem ensureNetwork_spec (w : WalletEnv) (config : ChainConfig) :
    (w.chainId = config.chainIdDec →
      ensureNetwork w config = (Except.ok (), [WAction.getNetwork])) ∧
    (w.chainId ≠ config.chainIdDec → w.switchResult = Except.ok () →
      ensureNetwork w config =
        (Except.ok (), [WAction.getNetwork, WAction.switchChain config.chainIdHex])) ∧
    (∀ e, w.chainId ≠ config.chainIdDec → w.switchResult = Except.error e →
      is4902 e = true → w.addResult = Except.ok () →
      ensureNetwork w config =
        (Except.ok (), [WAction.getNetwork, WAction.switchChain config.chainIdHex,
          WAction.addChain config])) ∧
    (∀ e, w.chainId ≠ config.chainIdDec → w.switchResult = Except.error e →
      is4902 e = false →
      ensureNetwork w config =
        (Except.error (PayErr.provider e),
         [WAction.getNetwork, WAction.switchChain config.chainIdHex])) := by
  refine ⟨?_, ?_, ?_, ?_⟩
  · intro h
    simp [ensureNetwork, h]
  · intro h hs
    simp [ensureNetwork, h, hs]
  · intro e h hs h49 ha
    simp [ensureNetwork, h, hs, h49, ha]
  · intro e h hs h49
    simp [ensureNetwork, h, hs, h49]

/-- C6 witness: a wallet already on chain 84532 makes ensureNetwork
for the base-sepolia config a no-op after the single chain-id read,
and a wallet on chain 1 whose switch call succeeds produces exactly
the read followed by the switch request. -/
theorem ensureNetwork_spec_witness :
    ensureNetwork wOk cfgBaseSepolia = (Except.ok (), [WAction.getNetwork]) ∧
    ensureNetwork wWrongChain cfgBaseSepolia =
      (Except.ok (), [WAction.getNetwork, WAction.switchChain "0x14a34"]) :=
  ⟨(ensureNetwork_spec wOk cfgBaseSepolia).1 rfl,
   (ensureNetwork_spec wWrongChain cfgBaseSepolia).2.1 (by decide) rfl⟩

theorem ensureNetwork_trace_shape (w : WalletEnv) (config : ChainConfig) :
    (ensureNetwork w config).2 = [WAction.getNetwork] ∨
    (ensureNetwork w config).2 =
      [WAction.getNetwork, WAction.switchChain config.chainIdHex] ∨
    (ensureNetwork w config).2 =
      [WAction.getNetwork, WAction.switchChain config.chainIdHex,
       WAction.addChain config] := by
  unfold ensureNetwork
  by_cases h : w.chainId = config.chainIdDec
  · simp [h]
  · simp only [h, if_false]
    cases w.switchResult with
    | ok _ => simp
    | error e =>
      by_cases h49 : is4902 e
      · cases w.addResult with
        | ok _ => simp [h49]
        | error e2 => simp [h49]
      · simp [h49]

theorem ensureNetwork_trace_clean (w : WalletEnv) (config : ChainConfig) :
    (ensureNetwork w config).2.filter isTransfer = [] ∧
    (ensureNetwork w config).2.filter isWait = [] ∧
    (ensureNetwork w config).2.head? = some WAction.getNetwork ∧
    (ensureNetwork w config).2.count WAction.getNetwork = 1 := by
  rcases ensureNetwork_trace_shape w config with h | h | h <;>
    rw [h] <;> refine ⟨?_, ?_, rfl, ?_⟩ <;>
      simp [isTransfer, isWait, List.count_cons]

/-- C3: whenever the flow reaches the pre-flight balance check (the
chain step succeeded and the required amount parses) and the balance
is strictly below the required amount, executePayment fails with the
insufficient-balance error carrying the required and available
amounts, compared as unbounded naturals, and its trace contains no
transfer call at all. -/
theorem executePayment_insufficient (w : WalletEnv) (option : X402Option)
    (config : ChainConfig) (required : Nat)
    (hens : (ensureNetwork w config).1 = Except.ok ())
    (hreq : parseDec option.maxAmountRequired = some required)
    (hbal : w.balance < required) :
    (executePayment true w option config).1 =
      Except.error (PayErr.insufficientBalance required w.balance) ∧
    ∀ a p amt, WAction.transfer a p amt ∉ (executePayment true w option config).2 := by
  have heq : executePayment true w option config =
      (Except.error (PayErr.insufficientBalance required w.balance),
       (ensureNetwork w config).2 ++
         [WAction.getAddress, WAction.balanceOf option.asset w.address]) := by
    unfold executePayment
    rw [hens, hreq]
    simp [hbal]
  refine ⟨by rw [heq], ?_⟩
  intro a p amt
  rw [heq]
  rcases ensureNetwork_trace_shape w config with h | h | h <;> rw [h] <;> simp

/-- C3 witness: a wallet on the right chain with balance 500000 and a
required amount of 1000000 fails with the insufficient-balance error
and performs no transfer call. -/
theorem executePayment_insufficient_witness :
    (ensureNetwork wPoor cfgBaseSepolia).1 = Except.ok () ∧
    parseDec optBase.maxAmountRequired = some 1000000 ∧
    wPoor.balance < 1000000 ∧
    (executePayment true wPoor optBase cfgBaseSepolia).1 =
      Except.error (PayErr.insufficientBalance 1000000 500000) :=
  ⟨by decide, by decide, by decide,
   (executePayment_insufficient wPoor optBase cfgBaseSepolia 1000000
     (by decide) (by decide) (by decide)).1⟩

theorem executePayment_ok_inv (hw : Bool) (w : WalletEnv) (option : X402Option)
    (config : ChainConfig) (txHash : String) (tr : List WAction)
    (h : executePayment hw w option config = (Except.ok txHash, tr)) :
    w.transferResult = Except.ok txHash ∧
    w.waitResult = Except.ok () ∧
    tr.filter isTransfer =
      [WAction.transfer option.asset option.payTo option.maxAmountRequired] ∧
    tr.filter isWait = [WAction.waitConfirmations 1] ∧
    tr = (ensureNetwork w config).2 ++
      [WAction.getAddress, WAction.balanceOf option.asset w.address,
       WAction.transfer option.asset option.payTo option.maxAmountRequired,
       WAction.waitConfirmations 1] := by
  cases hw with
  | false => unfold executePayment at h; simp at h
  | true =>
    unfold executePayment at h
    simp only [Bool.not_true, Bool.false_eq_true, if_false] at h
    cases hE : (ensureNetwork w config).1 with
    | error e => rw [hE] at h; simp at h
    | ok u =>
      rw [hE] at h
      simp only at h
      cases hP : parseDec option.maxAmountRequired with
      | none => rw [hP] at h; simp at h
      | some required =>
        rw [hP] at h
        simp only at h
        by_cases hb : w.balance < required
        · rw [if_pos hb] at h; simp at h
        · rw [if_neg hb] at h
          cases hT : w.transferResult with
          | error e => rw [hT] at h; simp at h
          | ok s =>
            rw [hT] at h
            simp only at h
            cases hW : w.waitResult with
            | error e => rw [hW] at h; simp at h
            | ok v =>
              rw [hW] at h
              cases v
              simp only [Prod.mk.injEq, Except.ok.injEq] at h
              obtain ⟨hs, htr⟩ := h
              subst hs
              refine ⟨rfl, rfl, ?_, ?_, ?_⟩
              · rw [← htr, List.filter_append, List.filter_append, List.filter_append,
                  (ensureNetwork_trace_clean w config).1]
                simp [isTransfer]
              · rw [← htr, List.filter_append, List.filter_append, List.filter_append,
                  (ensureNetwork_trace_clean w config).2.1]
                simp [isWait]
              · rw [← htr]
                simp

/-- C4: every successful executePayment run submitted exactly one
transfer, of exactly maxAmountRequired units of option.asset to
option.payTo, waited for exactly one confirmation (one wait call, of
one block) after the transfer and before returning, and returned the
hash of that transfer. -/
theorem executePayment_success (hw : Bool) (w : WalletEnv) (option : X402Option)
    (config : ChainConfig) (txHash : String) (tr : List WAction)
    (h : executePayment hw w option config = (Except.ok txHash, tr)) :
    w.transferResult = Except.ok txHash ∧
    w.waitResult = Except.ok () ∧
    tr.filter isTransfer =
      [WAction.transfer option.asset option.payTo option.maxAmountRequired] ∧
    tr.filter isWait = [WAction.waitConfirmations 1] ∧
    tr = (ensureNetwork w config).2 ++
      [WAction.getAddress, WAction.balanceOf option.asset w.address,
       WAction.transfer option.asset option.payTo option.maxAmountRequired,
       WAction.waitConfirmations 1] :=
  executePayment_ok_inv hw w option config txHash tr h

/-- C4 witness: against a funded wallet already on the right chain,
executePayment succeeds with the transfer hash and performs exactly
one transfer and one single-confirmation wait. -/
theorem executePayment_success_witness :
    executePayment true wOk optBase cfgBaseSepolia =
      (Except.ok "0xTxHash", demoTrace) ∧
    demoTrace.filter isTransfer =
      [WAction.transfer "0xUSDC" "0xMerchant" "1000000"] ∧
    demoTrace.filter isWait = [WAction.waitConfirmations 1] :=
  ⟨by decide,
   (executePayment_success true wOk optBase cfgBaseSepolia "0xTxHash" demoTrace
     (by decide)).2.2.1,
   (executePayment_success true wOk optBase cfgBaseSepolia "0xTxHash" demoTrace
     (by decide)).2.2.2.1⟩

theorem b64val_b64char : ∀ v < 64, b64val (b64char v) = some v := by decide

theorem b64char_ne_pad : ∀ v < 64, b64char v ≠ '=' := by decide

theorem decodeB64_encodeBytes :
    ∀ (bs : List Nat), (∀ x ∈ bs, x < 256) →
      decodeB64 (encodeBytes bs) = some bs
  | [], _ => rfl
  | [a], h => by
    have ha : a < 256 := h a (by simp)
    rw [encodeBytes, decodeB64, if_pos ⟨rfl, rfl, rfl⟩,
      b64val_b64char (a / 4) (by omega),
      b64val_b64char (a % 4 * 16) (by omega)]
    simp only [Option.some_bind]
    rw [if_pos (by omega : a % 4 * 16 % 16 = 0)]
    have hval : a / 4 * 4 + a % 4 * 16 / 16 = a := by omega
    rw [hval]
  | [a, b], h => by
    have ha : a < 256 := h a (by simp)
    have hb : b < 256 := h b (by simp)
    rw [encodeBytes, decodeB64,
      if_neg (fun hx => b64char_ne_pad (b % 16 * 4) (by omega) hx.1),
      if_pos ⟨rfl, rfl⟩,
      b64val_b64char (a / 4) (by omega),
      b64val_b64char (a % 4 * 16 + b / 16) (by omega),
      b64val_b64char (b % 16 * 4) (by omega)]
    simp only [Option.some_bind]
    rw [if_pos (by omega : b % 16 * 4 % 4 = 0)]
    have h1 : a / 4 * 4 + (a % 4 * 16 + b / 16) / 16 = a := by omega
    have h2 : (a % 4 * 16 + b / 16) % 16 * 16 + b % 16 * 4 / 4 = b := by omega
    rw [h1, h2]
  | a :: b :: c :: rest, h => by
    have ha : a < 256 := h a (by simp)
    have hb : b < 256 := h b (by simp)
    have hc : c < 256 := h c (by simp)
    have ih := decodeB64_encodeBytes rest (fun x hx => h x (by simp [hx]))
    rw [encodeBytes, decodeB64,
      if_neg (fun hx => b64char_ne_pad (b % 16 * 4 + c / 64) (by omega) hx.1),
      if_neg (fun hx => b64char_ne_pad (c % 64) (by omega) hx.1),
      b64val_b64char (a / 4) (by omega),
      b64val_b64char (a % 4 * 16 + b / 16) (by omega),
      b64val_b64char (b % 16 * 4 + c / 64) (by omega),
      b64val_b64char (c % 64) (by omega), ih]
    simp only [Option.some_bind, Option.map_some']
    have h1 : a / 4 * 4 + (a % 4 * 16 + b / 16) / 16 = a := by omega
    have h2 : (a % 4 * 16 + b / 16) % 16 * 16 + (b % 16 * 4 + c / 64) / 4 = b := by omega
    have h3 : (b % 16 * 4 + c / 64) % 4 * 64 + c % 64 = c := by omega
    rw [h1, h2, h3]

/-- C5: a produced payment token is the btoa Base64 encoding of the
JSON serialization of the record of hash and chainId; decoding it
yields exactly the code units of that JSON text (losslessness), and
re-encoding the decoded bytes yields the identical token (round-trip
law). -/
theorem createPaymentToken_roundtrip (txHash : String) (chainId : Nat)
    (tok : String) (h : createPaymentToken txHash chainId = some tok) :
    createPaymentToken txHash chainId = btoa (paymentTokenJson txHash chainId) ∧
    decodeB64 tok.data =
      some ((paymentTokenJson txHash chainId).data.map Char.toNat) ∧
    decodeThenReencode tok = some tok := by
  unfold createPaymentToken btoa at h
  by_cases hall : (paymentTokenJson txHash chainId).data.all (fun c => c.toNat < 256)
  · rw [if_pos hall] at h
    have htok : tok = String.mk (encodeBytes
        ((paymentTokenJson txHash chainId).data.map Char.toNat)) := by
      exact (Option.some.injEq _ _ ▸ h).symm
    have hbound : ∀ x ∈ (paymentTokenJson txHash chainId).data.map Char.toNat,
        x < 256 := by
      intro x hx
      obtain ⟨ch, hch, rfl⟩ := List.mem_map.mp hx
      have := List.all_eq_true.mp hall ch hch
      exact of_decide_eq_true this
    have hdec : decodeB64 tok.data =
        some ((paymentTokenJson txHash chainId).data.map Char.toNat) := by
      rw [htok]
      exact decodeB64_encodeBytes _ hbound
    refine ⟨rfl, hdec, ?_⟩
    unfold decodeThenReencode
    rw [hdec, Option.map_some']
    rw [htok]
  · rw [if_neg hall] at h
    exact absurd h (by simp)

/-- C5 witness: the token for hash 0xTxHash and chain id 84532, and
its decode-then-reencode round trip back to itself. -/
theorem createPaymentToken_roundtrip_witness :
    createPaymentToken "0xTxHash" 84532 = some demoToken ∧
    decodeThenReencode demoToken = some demoToken :=
  ⟨by decide,
   (createPaymentToken_roundtrip "0xTxHash" 84532 demoToken (by decide)).2.2⟩

theorem innerCatchMsg_ne_empty (c : Option ErrCode) (m : String) :
    innerCatchMsg c m ≠ "" := by
  unfold innerCatchMsg jsOrStr
  split
  · decide
  · split
    · decide
    · assumption

theorem handlePayment_paid (env : OrchEnv) (plan : String) (ld : Bool)
    (accepts : List X402Option) (errField : Option String)
    (ecode : Option ErrCode) (msg : String)
    (option : X402Option) (config : ChainConfig) (txHash : String)
    (tr : List WAction) (token : String)
    (h1 : env.firstResp = HttpOutcome.httpErr 402 (some accepts) errField ecode msg)
    (h2 : findBestPaymentOption accepts = Except.ok (option, config))
    (h3 : executePayment env.hasWallet env.wallet option config = (Except.ok txHash, tr))
    (h4 : createPaymentToken txHash config.chainIdDec = some token) :
    (handlePayment env plan ld).requests =
      [{ plan := plan, xPayment := none }, { plan := plan, xPayment := some token }] ∧
    (handlePayment env plan ld).walletActions = tr ∧
    ((handlePayment env plan ld).errorMsg = "" ↔ env.retryResp = HttpOutcome.ok) := by
  unfold handlePayment
  rw [h1]
  simp only [h2, h3, h4]
  cases hR : env.retryResp with
  | ok => simp
  | httpErr st acc ef c m =>
    simp [innerCatchMsg_ne_empty]
  | netErr c m =>
    simp [innerCatchMsg_ne_empty]

/-- C7: when the initial request returns a 402 with payment options
and the on-chain payment succeeds, the orchestrator reissues the
original request exactly once, with the encoded proof token in the
X-Payment header (two requests in total, the first bare, the second
carrying the token); if that single retried request is itself
rejected the attempt ends with a non-empty error and no further
request is made. -/
theorem handlePayment_retry_once (env : OrchEnv) (plan : String) (ld : Bool)
    (accepts : List X402Option) (errField : Option String)
    (ecode : Option ErrCode) (msg : String)
    (option : X402Option) (config : ChainConfig) (txHash : String)
    (tr : List WAction) (token : String)
    (h1 : env.firstResp = HttpOutcome.httpErr 402 (some accepts) errField ecode msg)
    (h2 : findBestPaymentOption accepts = Except.ok (option, config))
    (h3 : executePayment env.hasWallet env.wallet option config = (Except.ok txHash, tr))
    (h4 : createPaymentToken txHash config.chainIdDec = some token) :
    (handlePayment env plan ld).requests =
      [{ plan := plan, xPayment := none }, { plan := plan, xPayment := some token }] ∧
    (env.retryResp ≠ HttpOutcome.ok → (handlePayment env plan ld).errorMsg ≠ "") := by
  obtain ⟨hreq, _, hiff⟩ :=
    handlePayment_paid env plan ld accepts errField ecode msg option config
      txHash tr token h1 h2 h3 h4
  exact ⟨hreq, fun hne hempty => hne (hiff.mp hempty)⟩

/-- C7 witness: a 402 response answered by a successful payment leads
to exactly two requests, the second carrying the proof token; when
the retried request is rejected again the run ends with an error. -/
theorem handlePayment_retry_once_witness :
    (handlePayment (env402 wOk) "basic" false).requests =
      [{ plan := "basic", xPayment := none },
       { plan := "basic", xPayment := some demoToken }] ∧
    (handlePayment env402RetryFail "basic" false).requests =
      [{ plan := "basic", xPayment := none },
       { plan := "basic", xPayment := some demoToken }] ∧
    (handlePayment env402RetryFail "basic" false).errorMsg ≠ "" :=
  ⟨(handlePayment_retry_once (env402 wOk) "basic" false [optBase] none none
      "Request failed with status code 402" optBase cfgBaseSepolia "0xTxHash"
      demoTrace demoToken rfl (by decide) (by decide) (by decide)).1,
   (handlePayment_retry_once env402RetryFail "basic" false [optBase] none none
      "Request failed with status code 402" optBase cfgBaseSepolia "0xTxHash"
      demoTrace demoToken rfl (by decide) (by decide) (by decide)).1,
   (handlePayment_retry_once env402RetryFail "basic" false [optBase] none none
      "Request failed with status code 402" optBase cfgBaseSepolia "0xTxHash"
      demoTrace demoToken rfl (by decide) (by decide) (by decide)).2 (by decide)⟩

/-- C8 as stated is false on the code: a run where the user rejected
the signing prompt (provider code ACTION_REJECTED) and a run where the
transfer failed with a plain provider error whose message text equals
the fixed rejection message produce identical results in every
observable field, so the caller cannot distinguish the user-rejection
outcome other than by message text; moreover the user-rejection
outcome renders with the same error styling as any other failure. -/
theorem handlePayment_rejection_counterexample :
    rejectedErr.code = some (ErrCode.str "ACTION_REJECTED") ∧
    impostorErr.code ≠ some (ErrCode.str "ACTION_REJECTED") ∧
    handlePayment (env402 wRejected) "basic" false =
      handlePayment (env402 wFailedSameMsg) "basic" false ∧
    rendersAsError (handlePayment (env402 wRejected) "basic" false) = true := by
  decide

/-- C8 amended: a user rejection is detected by the ACTION_REJECTED
provider code (not by message text) and mapped to the fixed message
about rejecting the transaction, while every other payment failure
surfaces its own message text (or a generic fallback); but the outcome
is carried only as that message string and renders with the same
error styling as every other failure. -/
theorem handlePayment_rejection_message (env : OrchEnv) (plan : String) (ld : Bool)
    (accepts : List X402Option) (errField : Option String)
    (ecode : Option ErrCode) (msg : String)
    (option : X402Option) (config : ChainConfig) (e : PayErr) (tr : List WAction)
    (h1 : env.firstResp = HttpOutcome.httpErr 402 (some accepts) errField ecode msg)
    (h2 : findBestPaymentOption accepts = Except.ok (option, config))
    (h3 : executePayment env.hasWallet env.wallet option config = (Except.error e, tr)) :
    (handlePayment env plan ld).errorMsg =
      (if payErrCode e = some (ErrCode.str "ACTION_REJECTED")
       then "You rejected the transaction."
       else jsOrStr (payErrMessage e) "Payment execution failed") ∧
    rendersAsError (handlePayment env plan ld) = true := by
  have heq : (handlePayment env plan ld).errorMsg =
      innerCatchMsg (payErrCode e) (payErrMessage e) := by
    unfold handlePayment
    rw [h1]
    simp only [h2, h3, if_true]
  refine ⟨by rw [heq]; rfl, ?_⟩
  unfold rendersAsError
  rw [heq]
  have := innerCatchMsg_ne_empty (payErrCode e) (payErrMessage e)
  simpa using this

/-- C8 amended witness: the user-rejection run surfaces the fixed
rejection message and renders as an error. -/
theorem handlePayment_rejection_message_witness :
    (handlePayment (env402 wRejected) "basic" false).errorMsg =
      "You rejected the transaction." ∧
    rendersAsError (handlePayment (env402 wRejected) "basic" false) = true :=
  ⟨((handlePayment_rejection_message (env402 wRejected) "basic" false [optBase]
      none none "Request failed with status code 402" optBase cfgBaseSepolia
      (PayErr.provider rejectedErr)
      [WAction.getNetwork, WAction.getAddress,
       WAction.balanceOf "0xUSDC" "0xPayer",
       WAction.transfer "0xUSDC" "0xMerchant" "1000000"]
      rfl (by decide) (by decide)).1).trans (by decide),
   (handlePayment_rejection_message (env402 wRejected) "basic" false [optBase]
      none none "Request failed with status code 402" optBase cfgBaseSepolia
      (PayErr.provider rejectedErr)
      [WAction.getNetwork, WAction.getAddress,
       WAction.balanceOf "0xUSDC" "0xPayer",
       WAction.transfer "0xUSDC" "0xMerchant" "1000000"]
      rfl (by decide) (by decide)).2⟩

/-- C9 as stated is false on the code: handlePayment consults no
in-flight guard before issuing the initial request; an invocation
entered while the loading flag of a previous one is still set behaves
identically to one entered when idle and still issues the request,
rather than being rejected or queued. -/
theorem handlePayment_guard_counterexample :
    handlePayment envOkResp "basic" true = handlePayment envOkResp "basic" false ∧
    (handlePayment envOkResp "basic" true).requests =
      [{ plan := "basic", xPayment := none }] := by
  decide

/-- C9 amended: handlePayment sets the loading flag on entry without
checking it, so its behaviour is independent of the pre-call value of
the in-flight flag and the initial request is always issued; only the
template hides the pay button while loading is true, and the function
itself contains no guard. -/
theorem handlePayment_no_guard (env : OrchEnv) (plan : String) :
    handlePayment env plan true = handlePayment env plan false ∧
    (handlePayment env plan true).requests.head? =
      some { plan := plan, xPayment := none } := by
  refine ⟨rfl, ?_⟩
  unfold handlePayment
  cases env.firstResp with
  | ok => rfl
  | netErr c m => rfl
  | httpErr status accepts errField c m =>
    by_cases h4 : status = 402
    · subst h4
      simp only [if_pos rfl]
      cases accepts with
      | none => rfl
      | some acc =>
        cases hFB : findBestPaymentOption acc with
        | error e => simp [hFB]
        | ok oc =>
          obtain ⟨option, config⟩ := oc
          simp only [hFB]
          cases hEx : executePayment env.hasWallet env.wallet option config with
          | mk r tr =>
            cases r with
            | error e => simp [hEx]
            | ok txHash =>
              simp only [hEx]
              cases hTok : createPaymentToken txHash config.chainIdDec with
              | none => simp [hTok]
              | some token =>
                simp only [hTok]
                cases env.retryResp <;> rfl
    · simp [h4]

/-- C10: whenever the flow reaches proof encoding, the chainId placed
in the token is chainIdDec of the ChainConfig the matcher selected
from the static NETWORK_MAP (the encoding call is applied to exactly
that value), and the wallet's chain id is read exactly once, at the
very start of the chain-ensuring step, never again between switching
and encoding — so the token's chainId does not depend on the chain the
wallet is actually on at transfer time. -/
theorem handlePayment_chainId_static (env : OrchEnv) (plan : String) (ld : Bool)
    (accepts : List X402Option) (errField : Option String)
    (ecode : Option ErrCode) (msg : String)
    (option : X402Option) (config : ChainConfig) (txHash : String)
    (tr : List WAction) (token : String)
    (h1 : env.firstResp = HttpOutcome.httpErr 402 (some accepts) errField ecode msg)
    (h2 : findBestPaymentOption accepts = Except.ok (option, config))
    (h3 : executePayment env.hasWallet env.wallet option config = (Except.ok txHash, tr))
    (h4 : createPaymentToken txHash config.chainIdDec = some token) :
    NETWORK_MAP option.network = some config ∧
    (handlePayment env plan ld).requests.getLast? =
      some { plan := plan, xPayment := some token } ∧
    (handlePayment env plan ld).walletActions = tr ∧
    tr.head? = some WAction.getNetwork ∧
    tr.count WAction.getNetwork = 1 := by
  obtain ⟨hreq, hwa, _⟩ :=
    handlePayment_paid env plan ld accepts errField ecode msg option config
      txHash tr token h1 h2 h3 h4
  have hnm := findFirstSupported_network accepts option config
    ((findBestPaymentOption_ok_iff accepts (option, config)).mp h2)
  have htr := (executePayment_ok_inv env.hasWallet env.wallet option config
    txHash tr h3).2.2.2.2
  refine ⟨hnm, by rw [hreq]; rfl, hwa, ?_, ?_⟩
  · rcases ensureNetwork_trace_shape env.wallet config with h | h | h <;>
      rw [htr, h] <;> rfl
  · rcases ensureNetwork_trace_shape env.wallet config with h | h | h <;>
      rw [htr, h] <;>
      simp [List.count_cons, List.count_append]

/-- C10 witness: in the successful demo run the token encodes chain id
84532 from the static config, the retried request carries it, and the
trace reads the chain id exactly once, at the start. -/
theorem handlePayment_chainId_static_witness :
    createPaymentToken "0xTxHash" cfgBaseSepolia.chainIdDec = some demoToken ∧
    (handlePayment (env402 wOk) "basic" false).requests.getLast? =
      some { plan := "basic", xPayment := some demoToken } ∧
    demoTrace.head? = some WAction.getNetwork ∧
    demoTrace.count WAction.getNetwork = 1 :=
  ⟨by decide,
   (handlePayment_chainId_static (env402 wOk) "basic" false [optBase] none none
      "Request failed with status code 402" optBase cfgBaseSepolia "0xTxHash"
      demoTrace demoToken rfl (by decide) (by decide) (by decide)).2.1,
   (handlePayment_chainId_static (env402 wOk) "basic" false [optBase] none none
      "Request failed with status code 402" optBase cfgBaseSepolia "0xTxHash"
      demoTrace demoToken rfl (by decide) (by decide) (by decide)).2.2.2.1,
   (handlePayment_chainId_static (env402 wOk) "basic" false [optBase] none none
      "Request failed with status code 402" optBase cfgBaseSepolia "0xTxHash"
      demoTrace demoToken rfl (by decide) (by decide) (by decide)).2.2.2.2⟩

end X402
